import Mathlib

/-
  Verification of the bar chart rendering pipeline of ng-charts.

  The repository contains three variants of the bar chart component:
  - src/src/app/barchart/barchart.component.ts   (class BarchartComponent)
  - src/src/lib/barChart/barChart.component.ts   (class BarChartComponent)
  - src/unnamed/part_000                         (an earlier BarchartComponent)

  This file gives a shallow embedding of their data model and operations:
  JS numbers are modelled as rationals, the JS NaN-or-undefined outcome of an
  arithmetic pipeline as Option, records as association lists from field name
  to a tagged value, and the d3 calls the components make (d3.max,
  d3.scaleBand with rangeRound, d3.scaleLinear with rangeRound, the
  selectAll/data/enter join, transitions) by their d3 semantics.  The DOM is
  modelled as the list of bar elements carrying the attributes the code sets;
  axis rendering (makeAxis) and tooltip attachment are external drawing
  effects that no claim touches and are not modelled.
-/

/- The rational arithmetic of Batteries is sealed behind irreducibility for
rewriting hygiene; concrete evaluations of the embedded pipeline need it to
reduce, so it is unsealed for this file. -/
attribute [local semireducible] Rat.add Rat.mul Rat.inv Rat.sub

namespace NgCharts

/-- A JS field value as stored in a chart record: the components read a
string-like categorical X field and a numeric Y field. -/
inductive Val where
  | str (s : String)
  | num (q : ℚ)
deriving DecidableEq

/-- A record of the dataset: an object, modelled as an association list from
field name to value.  Reading an absent field yields none (JS undefined). -/
abbrev Record := List (String × Val)

/-- JS property access d[k]: the first binding of k, or undefined (none). -/
def lookupField (d : Record) (k : String) : Option Val :=
  List.lookup k d

/-- JS Math.round: round half toward positive infinity.  (Rat.floor is the
computable floor; it is related to the mathematical floor below.) -/
def d3Round (q : ℚ) : ℤ :=
  (q + 1 / 2).floor

/-- d3.max over an extracted series: undefined entries are skipped; a running
maximum is kept, replaced exactly when the comparison max less-than value
holds, as in the d3-array source; with no numeric value the result is
undefined (none).  String values, which d3 would compare with JS coercion
semantics, occur in no Y series of any claim and are skipped. -/
def d3Max (l : List (Option Val)) : Option ℚ :=
  l.foldl
    (fun acc v =>
      match v with
      | some (Val.num q) =>
        match acc with
        | none => some q
        | some m => some (if m < q then q else m)
      | _ => acc)
    none

/-- The domain construction of a d3 ordinal/band scale: values are interned
into a map in order, skipping values already present, so the effective domain
is the distinct values in first-occurrence order. -/
def firstDedupAux {α : Type} [DecidableEq α] (seen : List α) : List α → List α
  | [] => []
  | a :: t =>
    if a ∈ seen then firstDedupAux seen t
    else a :: firstDedupAux (a :: seen) t

/-- Distinct values in first-occurrence order, as d3.scaleBand().domain(xs)
retains them. -/
def firstDedup {α : Type} [DecidableEq α] (l : List α) : List α :=
  firstDedupAux [] l

/-- Position of a value in a band scale domain (the interned index), none when
the value is not in the domain (d3 band scales return undefined there). -/
def domIndex {α : Type} [DecidableEq α] (x : α) : List α → Option ℕ
  | [] => none
  | a :: t => if a = x then some 0 else (domIndex x t).map (· + 1)

/-- JS subtraction of a possibly-NaN right operand from a number: NaN is
absorbing. -/
def osub (a : ℤ) (o : Option ℤ) : Option ℤ :=
  o.map (fun b => a - b)

/-- d3.scaleLinear().domain([d0, d1]).rangeRound([r0, r1]).  The upper domain
bound is d3.max of the Y series and hence possibly undefined (none). -/
structure LinearScale where
  d0 : ℚ
  d1 : Option ℚ
  r0 : ℚ
  r1 : ℚ
deriving DecidableEq

/-- Application of a d3 continuous scale with rangeRound.  Per d3-scale,
normalize(a, b) is x -> (x - a) / (b - a) when the domain is nondegenerate
and the constant 1/2 when b - a is zero (so every input maps to the midpoint
of the range); when the upper bound is undefined the output is NaN (none).
rangeRound applies Math.round to the interpolated output. -/
def LinearScale.scale (s : LinearScale) (v : ℚ) : Option ℤ :=
  match s.d1 with
  | none => none
  | some m =>
    if m = s.d0 then some (d3Round ((s.r0 + s.r1) / 2))
    else some (d3Round (s.r0 + (s.r1 - s.r0) * ((v - s.d0) / (m - s.d0))))

/-- Application of the linear scale to a record field value, as in
yScale(d[yField]): an undefined or non-numeric argument yields NaN (none). -/
def LinearScale.applyVal (s : LinearScale) (v : Option Val) : Option ℤ :=
  match v with
  | some (Val.num q) => s.scale q
  | _ => none

/-- d3.scaleBand().domain(xData).rangeRound([0, chartWidth]) with the default
zero inner/outer padding and align 0.5.  domain holds the interned (distinct,
first-occurrence order) values. -/
structure BandScale where
  domain : List (Option Val)
  cw : ℤ
deriving DecidableEq

/-- Number of bands. -/
def BandScale.n (b : BandScale) : ℕ :=
  b.domain.length

/-- The band step.  Per d3-band with range [0, cw], zero paddings:
step = (cw - 0) / max(1, n) -- written here as the if-form of Math.max(1, n)
on naturals -- floored because rangeRound sets round = true. -/
def BandScale.step (b : BandScale) : ℤ :=
  ((b.cw : ℚ) / ((if b.n = 0 then 1 else b.n : ℕ) : ℚ)).floor

/-- The left edge of band 0.  Per d3-band: start = 0 + (cw - step * n) * align
with align = 0.5, rounded because round = true. -/
def BandScale.start (b : BandScale) : ℤ :=
  d3Round (((b.cw : ℚ) - (b.step : ℚ) * (b.n : ℚ)) / 2)

/-- bandwidth() = step * (1 - paddingInner) = step (already an integer, so the
round = true rounding of it is the identity). -/
def BandScale.bandwidth (b : BandScale) : ℤ :=
  b.step

/-- Band scale lookup: a domain value maps to the left edge of its band,
start + step * index; a value not in the domain maps to undefined. -/
def BandScale.scale (b : BandScale) (x : Option Val) : Option ℤ :=
  (domIndex x b.domain).map (fun i => b.start + b.step * (i : ℤ))

/-- The only easing the components use is d3.easeLinear. -/
inductive Ease where
  | linear
deriving DecidableEq

/-- A bar rect as created at enter time in the app and lib variants, with the
attributes set before the transition starts:
width = xScale.bandwidth(), x = xScale(d[x]), y = yScale(0),
height = chartHeight - yScale(0). -/
structure BarEnter where
  width : ℤ
  x : Option ℤ
  y : Option ℤ
  height : Option ℤ
deriving DecidableEq

/-- The transition started on each entered bar in the app and lib variants:
ease(d3.easeLinear), a fixed duration in ms, and the animated target
attributes y = yScale(d[y]) and height = chartHeight - yScale(d[y]). -/
structure BarTransition where
  ease : Ease
  duration : ℕ
  y : Option ℤ
  height : Option ℤ
deriving DecidableEq

/-- The data produced by one draw call of the app or lib variant: the two
scales stored on the component, the bar elements present in the chart after
the call (prior bars plus newly entered ones), and the transitions enqueued
on the newly entered bars. -/
structure DrawOut where
  xScale : BandScale
  yScale : LinearScale
  bars : List BarEnter
  transitions : List BarTransition
deriving DecidableEq

/-- The margins input of a component. -/
structure Margins where
  top : ℤ
  right : ℤ
  bottom : ℤ
  left : ℤ
deriving DecidableEq

/-- The inputs of a component relevant to the claims: total size, margins and
the two field names. -/
structure Cfg where
  width : ℤ
  height : ℤ
  margins : Margins
  x : String
  y : String
deriving DecidableEq

/-- The component state established by ngOnInit when it does not throw:
the computed plotting area and the result of the initial draw.  (The canvas
creation by ChartService.makeChartCanvas and, in the lib variant, the tooltip
label object are external effects carrying no data a claim mentions.) -/
structure InitResult where
  chartWidth : ℤ
  chartHeight : ℤ
  draw : DrawOut
deriving DecidableEq

/-- The component state after ngOnChanges: the recomputed plotting area and,
when a draw happened (chart present and data non-null), its result. -/
structure ChangesResult where
  chartWidth : ℤ
  chartHeight : ℤ
  draw : Option DrawOut
deriving DecidableEq

namespace BarchartComponent

/- The app variant, src/src/app/barchart/barchart.component.ts. -/

/-- getData of the app variant: data.map(d => d[dataElement]); no
deduplication, no validation, an absent field passes undefined through. -/
def getData (data : List Record) (dataElement : String) : List (Option Val) :=
  data.map (fun d => lookupField d dataElement)

/-- The draw method of the app variant.  xData and yData are extracted with
getData; xScale = d3.scaleBand().domain(xData).rangeRound([0, chartWidth]);
yScale = d3.scaleLinear().domain([0, d3.max(yData)]).rangeRound([chartHeight,
0]).  Then chart.selectAll(.bar).data(dataSet).enter() joins by index against
the bar elements already in the chart: the enter selection holds exactly the
records at indices at or beyond the count of existing bars; for each a rect is
appended with width/x/y/height as listed in BarEnter and a transition with
ease(d3.easeLinear), duration(880) toward the BarTransition targets.  The
update and exit selections are not handled: prior bars are neither mutated nor
removed.  makeAxis appends axis elements; they carry no claim-relevant data
and are not modelled. -/
def draw (prevBars : List BarEnter) (chartWidth chartHeight : ℤ)
    (x y : String) (dataSet : List Record) : DrawOut :=
  let xData := getData dataSet x
  let yData := getData dataSet y
  let xScale : BandScale := { domain := firstDedup xData, cw := chartWidth }
  let yScale : LinearScale :=
    { d0 := 0, d1 := d3Max yData, r0 := (chartHeight : ℚ), r1 := 0 }
  let enterData := dataSet.drop prevBars.length
  { xScale := xScale
    yScale := yScale
    bars := prevBars ++ enterData.map (fun d =>
      { width := xScale.bandwidth
        x := xScale.scale (lookupField d x)
        y := yScale.scale 0
        height := osub chartHeight (yScale.scale 0) })
    transitions := enterData.map (fun d =>
      { ease := Ease.linear
        duration := 880
        y := yScale.applyVal (lookupField d y)
        height := osub chartHeight (yScale.applyVal (lookupField d y)) }) }

/-- ngOnInit of the app variant.  Its first statement throws the error
Missing Data! when this.data == null (null or undefined); only afterwards are
chartWidth and chartHeight computed, the canvas made, and the data drawn (the
data truthiness guard around the draw call always passes once the null check
did, an empty array being truthy in JS). -/
def ngOnInit (cfg : Cfg) (data : Option (List Record)) :
    Except String InitResult :=
  match data with
  | none => Except.error "Missing Data!"
  | some ds =>
    let cw := cfg.width - cfg.margins.left - cfg.margins.right
    let ch := cfg.height - cfg.margins.top - cfg.margins.bottom
    Except.ok
      { chartWidth := cw
        chartHeight := ch
        draw := draw [] cw ch cfg.x cfg.y ds }

/-- ngOnChanges of the app variant: recomputes chartWidth and chartHeight
unconditionally, then draws only when both this.chart and this.data are
truthy.  The method contains no throw statement, so it is a total function. -/
def ngOnChanges (cfg : Cfg) (chart : Bool) (prevBars : List BarEnter)
    (data : Option (List Record)) : ChangesResult :=
  let cw := cfg.width - cfg.margins.left - cfg.margins.right
  let ch := cfg.height - cfg.margins.top - cfg.margins.bottom
  { chartWidth := cw
    chartHeight := ch
    draw :=
      if chart then data.map (fun ds => draw prevBars cw ch cfg.x cfg.y ds)
      else none }

end BarchartComponent

namespace DataService

/-- Modelled from the spec: DataService.getData, called by the lib variant;
the file src/lib/shared/data.service.ts is not under src/.  Per the spec
FieldExtractor section, it projects the dataset to the values of one named
field, one per record, same order, without deduplication or validation; this
agrees with the inline getData of the app variant. -/
def getData (data : List Record) (dataElement : String) : List (Option Val) :=
  data.map (fun d => lookupField d dataElement)

/-- Modelled from the spec: the categorical branch of DataService.makeScale,
called by the lib variant as makeScale(categorical, xData, chartWidth); the
file src/lib/shared/data.service.ts is not under src/.  Per the spec
ScaleBuilder section it is a band scale with domain the distinct X values in
first-occurrence order, range [0, chartWidth], zero padding and rangeRound
behavior; this agrees with the inline d3.scaleBand call of the app variant. -/
def makeCategoricalScale (xData : List (Option Val)) (chartWidth : ℤ) :
    BandScale :=
  { domain := firstDedup xData, cw := chartWidth }

/-- Modelled from the spec: the linear branch of DataService.makeScale, called
by the lib variant as makeScale(linear, yData, chartHeight, false); the file
src/lib/shared/data.service.ts is not under src/.  Per the spec ScaleBuilder
section it is a linear scale with domain [0, max(Y values)] and range
[chartHeight, 0]; this agrees with the inline d3.scaleLinear call of the app
variant. -/
def makeLinearScale (yData : List (Option Val)) (chartHeight : ℤ) :
    LinearScale :=
  { d0 := 0, d1 := d3Max yData, r0 := (chartHeight : ℚ), r1 := 0 }

end DataService

namespace BarChartComponent

/- The lib variant, src/src/lib/barChart/barChart.component.ts. -/

/-- The draw method of the lib variant: as the app variant, with extraction
and scale construction delegated to DataService and the tooltip service
handed the entered bars between enter-attribute assignment and the start of
the 880 ms linear-eased transition (an external effect that alters no bar
geometry). -/
def draw (prevBars : List BarEnter) (chartWidth chartHeight : ℤ)
    (x y : String) (dataSet : List Record) : DrawOut :=
  let xData := DataService.getData dataSet x
  let yData := DataService.getData dataSet y
  let xScale := DataService.makeCategoricalScale xData chartWidth
  let yScale := DataService.makeLinearScale yData chartHeight
  let enterData := dataSet.drop prevBars.length
  { xScale := xScale
    yScale := yScale
    bars := prevBars ++ enterData.map (fun d =>
      { width := xScale.bandwidth
        x := xScale.scale (lookupField d x)
        y := yScale.scale 0
        height := osub chartHeight (yScale.scale 0) })
    transitions := enterData.map (fun d =>
      { ease := Ease.linear
        duration := 880
        y := yScale.applyVal (lookupField d y)
        height := osub chartHeight (yScale.applyVal (lookupField d y)) }) }

/-- ngOnInit of the lib variant: identical control flow to the app variant;
the throw of Missing Data! is the first statement, before the plotting area
is computed, the tooltip labels built, the canvas made, or anything drawn. -/
def ngOnInit (cfg : Cfg) (data : Option (List Record)) :
    Except String InitResult :=
  match data with
  | none => Except.error "Missing Data!"
  | some ds =>
    let cw := cfg.width - cfg.margins.left - cfg.margins.right
    let ch := cfg.height - cfg.margins.top - cfg.margins.bottom
    Except.ok
      { chartWidth := cw
        chartHeight := ch
        draw := draw [] cw ch cfg.x cfg.y ds }

/-- ngOnChanges of the lib variant: recomputes chartWidth and chartHeight and
rebuilds the tooltip labels unconditionally, then draws only when this.chart
and this.data are both truthy.  No throw statement exists on this path. -/
def ngOnChanges (cfg : Cfg) (chart : Bool) (prevBars : List BarEnter)
    (data : Option (List Record)) : ChangesResult :=
  let cw := cfg.width - cfg.margins.left - cfg.margins.right
  let ch := cfg.height - cfg.margins.top - cfg.margins.bottom
  { chartWidth := cw
    chartHeight := ch
    draw :=
      if chart then data.map (fun ds => draw prevBars cw ch cfg.x cfg.y ds)
      else none }

end BarChartComponent

namespace Part000

/- The earlier variant, src/unnamed/part_000. -/

/-- A bar rect as created at enter time in part_000: only height = 0 and
y = chartHeight are set before the transition starts. -/
structure BarEnter0 where
  height : ℤ
  y : ℤ
deriving DecidableEq

/-- The transition started on each entered bar in part_000: d3.easeLinear,
duration 1200 ms, and targets class bar (a constant string, not modelled),
width = xScale.bandwidth(), x = xScale(d[x]), y = yScale(d[y]),
height = chartHeight - yScale(d[y]). -/
structure BarTransition0 where
  ease : Ease
  duration : ℕ
  width : ℤ
  x : Option ℤ
  y : Option ℤ
  height : Option ℤ
deriving DecidableEq

/-- The data produced by one draw call of part_000. -/
structure DrawOut0 where
  xScale : BandScale
  yScale : LinearScale
  bars : List BarEnter0
  transitions : List BarTransition0
deriving DecidableEq

/-- The plotting area part_000 ngOnChanges recomputes. -/
structure Geometry where
  chartWidth : ℤ
  chartHeight : ℤ
deriving DecidableEq

/-- getData of part_000: this.data.map(d => d[dataElement]). -/
def getData (data : List Record) (dataElement : String) : List (Option Val) :=
  data.map (fun d => lookupField d dataElement)

/-- The draw method of part_000: same extraction, scales and index join as
the app variant; the entered rects receive only height = 0 and
y = chartHeight before the 1200 ms linear-eased transition toward the
BarTransition0 targets. -/
def draw (prevBars : List BarEnter0) (chartWidth chartHeight : ℤ)
    (x y : String) (data : List Record) : DrawOut0 :=
  let xData := getData data x
  let yData := getData data y
  let xScale : BandScale := { domain := firstDedup xData, cw := chartWidth }
  let yScale : LinearScale :=
    { d0 := 0, d1 := d3Max yData, r0 := (chartHeight : ℚ), r1 := 0 }
  let enterData := data.drop prevBars.length
  { xScale := xScale
    yScale := yScale
    bars := prevBars ++ enterData.map (fun _ =>
      { height := 0, y := chartHeight })
    transitions := enterData.map (fun d =>
      { ease := Ease.linear
        duration := 1200
        width := xScale.bandwidth
        x := xScale.scale (lookupField d x)
        y := yScale.applyVal (lookupField d y)
        height := osub chartHeight (yScale.applyVal (lookupField d y)) }) }

/-- ngOnChanges of part_000: it only recomputes chartWidth and chartHeight;
it never draws and never throws. -/
def ngOnChanges (cfg : Cfg) : Geometry :=
  { chartWidth := cfg.width - cfg.margins.left - cfg.margins.right
    chartHeight := cfg.height - cfg.margins.top - cfg.margins.bottom }

end Part000

/- Concrete inputs used by witnesses and counterexamples. -/

/-- The default config of the lib variant: 400 by 400, margins 60. -/
def cfgLib : Cfg :=
  { width := 400, height := 400
    margins := { top := 60, right := 60, bottom := 60, left := 60 }
    x := "cat", y := "val" }

/-- The default config of the app variant: 400 by 600, margins 50. -/
def cfgApp : Cfg :=
  { width := 400, height := 600
    margins := { top := 50, right := 50, bottom := 50, left := 50 }
    x := "cat", y := "val" }

/-- A config whose margins exceed the total width: plotting width 100 - 60 -
60 = -20. -/
def cfgBad : Cfg :=
  { width := 100, height := 400
    margins := { top := 60, right := 60, bottom := 60, left := 60 }
    x := "cat", y := "val" }

/-- The end-to-end dataset of the spec: A 10, B 20, C 5. -/
def dsABC : List Record :=
  [[("cat", Val.str "A"), ("val", Val.num 10)],
   [("cat", Val.str "B"), ("val", Val.num 20)],
   [("cat", Val.str "C"), ("val", Val.num 5)]]

/-- The negative-minimum dataset of the spec test: Y values -5, 10, 3. -/
def dsNeg : List Record :=
  [[("cat", Val.str "A"), ("val", Val.num (-5))],
   [("cat", Val.str "B"), ("val", Val.num 10)],
   [("cat", Val.str "C"), ("val", Val.num 3)]]

/-- A one-record dataset whose Y maximum is zero: the linear domain
degenerates to [0, 0]. -/
def dsZero : List Record :=
  [[("cat", Val.str "A"), ("val", Val.num 0)]]

/-- A dataset with a duplicated X category. -/
def dsDup : List Record :=
  [[("cat", Val.str "A"), ("val", Val.num 1)],
   [("cat", Val.str "B"), ("val", Val.num 2)],
   [("cat", Val.str "A"), ("val", Val.num 3)]]

/-- A two-record dataset for the re-render scenario. -/
def dsTwo : List Record :=
  [[("cat", Val.str "A"), ("val", Val.num 1)],
   [("cat", Val.str "B"), ("val", Val.num 2)]]

/-- Re-render scenario, first draw: the lib variant drawing the three-record
dataset into an empty chart. -/
def c7first : DrawOut :=
  BarChartComponent.draw [] 280 280 "cat" "val" dsABC

/-- Re-render scenario, second draw: the same chart redrawn with the
two-record dataset; the bars of the first draw are still in the chart. -/
def c7second : DrawOut :=
  BarChartComponent.draw c7first.bars 280 280 "cat" "val" dsTwo

/- Helper lemmas about the embedded d3 primitives. -/

theorem mem_firstDedupAux {α : Type} [DecidableEq α] (seen l : List α)
    (x : α) : x ∈ firstDedupAux seen l ↔ x ∈ l ∧ x ∉ seen := by
  induction l generalizing seen with
  | nil => simp [firstDedupAux]
  | cons a t ih =>
    by_cases h : a ∈ seen
    · simp only [firstDedupAux, if_pos h, ih, List.mem_cons]
      aesop
    · simp only [firstDedupAux, if_neg h, List.mem_cons, ih]
      by_cases hxa : x = a <;> aesop

theorem nodup_firstDedupAux {α : Type} [DecidableEq α] (seen l : List α) :
    (firstDedupAux seen l).Nodup := by
  induction l generalizing seen with
  | nil => simp [firstDedupAux]
  | cons a t ih =>
    by_cases h : a ∈ seen
    · simpa [firstDedupAux, if_pos h] using ih seen
    · simp only [firstDedupAux, if_neg h]
      refine List.nodup_cons.mpr ⟨fun hmem => ?_, ih (a :: seen)⟩
      exact ((mem_firstDedupAux (a :: seen) t a).mp hmem).2
        (List.mem_cons_self a seen)

theorem firstDedupAux_sublist {α : Type} [DecidableEq α] (seen l : List α) :
    List.Sublist (firstDedupAux seen l) l := by
  induction l generalizing seen with
  | nil => simp [firstDedupAux]
  | cons a t ih =>
    by_cases h : a ∈ seen
    · simp only [firstDedupAux, if_pos h]
      exact (ih seen).trans (List.sublist_cons_self a t)
    · simp only [firstDedupAux, if_neg h]
      exact List.Sublist.cons₂ a (ih (a :: seen))

theorem mem_firstDedup {α : Type} [DecidableEq α] (l : List α) (x : α) :
    x ∈ firstDedup l ↔ x ∈ l := by
  simp [firstDedup, mem_firstDedupAux]

theorem firstDedup_nodup {α : Type} [DecidableEq α] (l : List α) :
    (firstDedup l).Nodup :=
  nodup_firstDedupAux [] l

theorem firstDedup_sublist {α : Type} [DecidableEq α] (l : List α) :
    List.Sublist (firstDedup l) l :=
  firstDedupAux_sublist [] l

theorem firstDedup_toFinset {α : Type} [DecidableEq α] (l : List α) :
    (firstDedup l).toFinset = l.toFinset := by
  ext x
  simp [List.mem_toFinset, mem_firstDedup]

theorem firstDedup_length_eq_card {α : Type} [DecidableEq α] (l : List α) :
    (firstDedup l).length = l.toFinset.card := by
  rw [← firstDedup_toFinset]
  exact (List.toFinset_card_of_nodup (firstDedup_nodup l)).symm

/-- The computable rational floor agrees with the mathematical floor. -/
theorem ratFloor_eq_floor (q : ℚ) : q.floor = ⌊q⌋ :=
  (Rat.floor_def' q).trans Rat.floor_def.symm

theorem d3Round_intCast (n : ℤ) : d3Round (n : ℚ) = n := by
  unfold d3Round
  rw [ratFloor_eq_floor, add_comm, Int.floor_add_int]
  norm_num

/-- Evaluation of the linear scale on a nondegenerate domain. -/
theorem LinearScale.scale_eval (a m r0 r1 v : ℚ) (h : m ≠ a) :
    LinearScale.scale { d0 := a, d1 := some m, r0 := r0, r1 := r1 } v =
      some (d3Round (r0 + (r1 - r0) * ((v - a) / (m - a)))) := by
  simp [LinearScale.scale, h]

/-- The scale the components build maps 0 to chartHeight when the Y maximum
is nonzero. -/
theorem LinearScale.scale_zero (m : ℚ) (ch : ℤ) (h : m ≠ 0) :
    LinearScale.scale { d0 := 0, d1 := some m, r0 := (ch : ℚ), r1 := 0 } 0 =
      some ch := by
  rw [LinearScale.scale_eval 0 m (ch : ℚ) 0 0 h]
  have e : ((ch : ℚ) + ((0 : ℚ) - ch) * (((0 : ℚ) - 0) / (m - 0))) = (ch : ℚ) := by
    ring
  rw [e, d3Round_intCast]

/-- The scale the components build maps the Y maximum to 0 when it is
nonzero. -/
theorem LinearScale.scale_at_max (m : ℚ) (ch : ℤ) (h : m ≠ 0) :
    LinearScale.scale { d0 := 0, d1 := some m, r0 := (ch : ℚ), r1 := 0 } m =
      some 0 := by
  rw [LinearScale.scale_eval 0 m (ch : ℚ) 0 m h]
  have hm : m - 0 ≠ 0 := by simpa using h
  have e : ((ch : ℚ) + ((0 : ℚ) - ch) * ((m - 0) / (m - 0))) = ((0 : ℤ) : ℚ) := by
    rw [div_self hm]
    norm_num
  rw [e, d3Round_intCast]

/-- A scale whose domain upper bound is undefined outputs NaN everywhere. -/
theorem LinearScale.scale_none (a r0 r1 v : ℚ) :
    LinearScale.scale { d0 := a, d1 := none, r0 := r0, r1 := r1 } v = none := by
  simp [LinearScale.scale]

theorem list_map_const_eq_replicate {α β : Type} (l : List α) (c : β) :
    l.map (fun _ => c) = List.replicate l.length c := by
  induction l with
  | nil => rfl
  | cons a t ih => simp [List.replicate_succ, ih]

/-- The bands of a band scale fit inside its range: with a nonnegative range
width, the sum of the bandwidths over the domain never exceeds it. -/
theorem bandwidth_mul_le (b : BandScale) (hcw : 0 ≤ b.cw) :
    (b.n : ℤ) * b.bandwidth ≤ b.cw := by
  rcases Nat.eq_zero_or_pos b.n with h | h
  · simpa [h] using hcw
  · have hne : b.n ≠ 0 := Nat.pos_iff_ne_zero.mp h
    unfold BandScale.bandwidth BandScale.step
    rw [if_neg hne, ratFloor_eq_floor]
    have hnpos : (0 : ℚ) < (b.n : ℚ) := by exact_mod_cast h
    have h1 : (⌊(b.cw : ℚ) / (b.n : ℚ)⌋ : ℚ) ≤ (b.cw : ℚ) / (b.n : ℚ) :=
      Int.floor_le _
    have h2 : (b.n : ℚ) * (⌊(b.cw : ℚ) / (b.n : ℚ)⌋ : ℚ) ≤ (b.cw : ℚ) := by
      rw [mul_comm]
      exact (le_div_iff₀ hnpos).mp h1
    exact_mod_cast h2

end NgCharts

open NgCharts

/-- C1 (amended): on the initial render path (ngOnInit), a null or absent
dataset raises the Missing Data! error immediately, before any plotting-area
geometry is computed and before any drawing call is made; on the
change-notification re-render path (ngOnChanges) a null dataset raises no
error: the geometry is recomputed and drawing is skipped. -/
theorem c1_missing_data_only_on_init :
    (∀ cfg : Cfg,
      BarChartComponent.ngOnInit cfg none = Except.error "Missing Data!") ∧
    (∀ (cfg : Cfg) (hc : Bool) (pb : List BarEnter),
      BarChartComponent.ngOnChanges cfg hc pb none =
        { chartWidth := cfg.width - cfg.margins.left - cfg.margins.right
          chartHeight := cfg.height - cfg.margins.top - cfg.margins.bottom
          draw := none }) := by
  refine ⟨fun cfg => rfl, fun cfg hc pb => ?_⟩
  cases hc <;> rfl

/-- C1 counterexample: a render invocation (a change notification, per the
render-invocation interface of the spec) whose dataset is null raises no
error at all: ngOnChanges returns normally, with the plotting-area geometry
recomputed and no drawing performed. -/
theorem c1_counterexample_rerender_null :
    BarChartComponent.ngOnChanges cfgLib true [] none =
      { chartWidth := 280, chartHeight := 280, draw := none } := by
  decide

/-- C2 (amended): for a dataset that is present but empty, or whose Y series
yields no maximum, render raises no error: d3.max returns undefined and a
linear scale with an undefined upper domain bound is silently built, every
output of which is NaN. -/
theorem c2_no_data_error_degenerate_scale (cfg : Cfg) (ds : List Record)
    (hm : d3Max (BarchartComponent.getData ds cfg.y) = none) :
    (BarchartComponent.ngOnInit cfg (some ds)).toOption.isSome = true ∧
    (BarchartComponent.ngOnInit cfg (some ds)).toOption.map
        (fun r => r.draw.yScale.d1) = some none ∧
    (∀ v : ℚ, (BarchartComponent.ngOnInit cfg (some ds)).toOption.map
        (fun r => r.draw.yScale.scale v) = some none) := by
  refine ⟨rfl, ?_, fun v => ?_⟩
  · simp [BarchartComponent.ngOnInit, Except.toOption, BarchartComponent.draw,
      hm]
  · simp [BarchartComponent.ngOnInit, Except.toOption, BarchartComponent.draw,
      hm, LinearScale.scale]

/-- C2 witness: the empty dataset satisfies the hypothesis and the
conclusion concretely. -/
theorem c2_witness :
    d3Max (BarchartComponent.getData [] cfgApp.y) = none ∧
    ((BarchartComponent.ngOnInit cfgApp (some [])).toOption.isSome = true ∧
     (BarchartComponent.ngOnInit cfgApp (some [])).toOption.map
        (fun r => r.draw.yScale.d1) = some none ∧
     (∀ v : ℚ, (BarchartComponent.ngOnInit cfgApp (some [])).toOption.map
        (fun r => r.draw.yScale.scale v) = some none)) :=
  ⟨rfl, c2_no_data_error_degenerate_scale cfgApp [] rfl⟩

/-- C2 counterexample: rendering the empty dataset raises nothing -- the
result is a normal ok value whose linear scale has an undefined upper domain
bound -- where the claim demands a DataError. -/
theorem c2_counterexample_empty_dataset :
    (BarchartComponent.ngOnInit cfgApp (some [])).toOption.isSome = true ∧
    (BarchartComponent.ngOnInit cfgApp (some [])).toOption.map
        (fun r => r.draw.yScale.d1) = some none := by
  refine ⟨rfl, rfl⟩

/-- C3 (amended): for every dataset whose Y maximum m is nonzero, the linear
scale has domain [0, m] (anchored at zero regardless of the Y minimum) and
range [chartHeight, 0], maps 0 to chartHeight and m to 0.  (When m = 0 the
domain is degenerate and d3 maps every input to the midpoint of the range,
so the endpoint mapping of the claim fails; see the counterexample.) -/
theorem c3_linear_scale_shape (cw ch : ℤ) (xK yK : String) (ds : List Record)
    (m : ℚ) (hm : d3Max (BarchartComponent.getData ds yK) = some m)
    (h0 : m ≠ 0) :
    (BarchartComponent.draw [] cw ch xK yK ds).yScale =
      { d0 := 0, d1 := some m, r0 := (ch : ℚ), r1 := 0 } ∧
    (BarchartComponent.draw [] cw ch xK yK ds).yScale.scale 0 = some ch ∧
    (BarchartComponent.draw [] cw ch xK yK ds).yScale.scale m = some 0 := by
  have hy : (BarchartComponent.draw [] cw ch xK yK ds).yScale =
      { d0 := 0, d1 := some m, r0 := (ch : ℚ), r1 := 0 } := by
    simp [BarchartComponent.draw, hm]
  refine ⟨hy, ?_, ?_⟩
  · rw [hy]
    exact LinearScale.scale_zero m ch h0
  · rw [hy]
    exact LinearScale.scale_at_max m ch h0

/-- C3 witness: the dataset with Y values -5, 10, 3 of the spec test: the
domain is [0, 10] despite the negative minimum, 0 maps to chartHeight 280 and
10 maps to 0. -/
theorem c3_witness :
    d3Max (BarchartComponent.getData dsNeg "val") = some 10 ∧
    (10 : ℚ) ≠ 0 ∧
    ((BarchartComponent.draw [] 280 280 "cat" "val" dsNeg).yScale =
        { d0 := 0, d1 := some 10, r0 := ((280 : ℤ) : ℚ), r1 := 0 } ∧
      (BarchartComponent.draw [] 280 280 "cat" "val" dsNeg).yScale.scale 0 =
        some 280 ∧
      (BarchartComponent.draw [] 280 280 "cat" "val" dsNeg).yScale.scale 10 =
        some 0) :=
  ⟨by decide, by decide,
    c3_linear_scale_shape 280 280 "cat" "val" dsNeg 10 (by decide) (by decide)⟩

/-- C3 counterexample: the non-empty dataset with the single Y value 0 has
Y maximum 0; the built scale maps 0 to 140 (the rounded midpoint of the
range [280, 0]), so it maps neither 0 to chartHeight = 280 nor max(Y) = 0 to
0 as the claim asserts for every non-empty dataset. -/
theorem c3_counterexample_zero_max :
    d3Max (BarchartComponent.getData dsZero "val") = some 0 ∧
    (BarchartComponent.draw [] 280 280 "cat" "val" dsZero).yScale.scale 0 =
      some 140 ∧
    ¬((BarchartComponent.draw [] 280 280 "cat" "val" dsZero).yScale.scale 0 =
        some 280 ∧
      (BarchartComponent.draw [] 280 280 "cat" "val" dsZero).yScale.scale 0 =
        some 0) := by
  decide

/-- C4: for every dataset (and nonnegative plotting width), the categorical
band scale's domain is the distinct X values in first-occurrence order with
no duplicates (a sublist of the extracted X series whose size is the count of
distinct X values); its range is [0, chartWidth]; the bandwidth is
chartWidth / domain.length under the integer rounding (Math.floor) that
rangeRound induces, which the source sentence explicitly permits; and the sum
of the bandwidths over the domain does not exceed chartWidth. -/
theorem c4_band_scale_partition (cw ch : ℤ) (xK yK : String)
    (ds : List Record) (b : BandScale) (hcw : 0 ≤ cw)
    (hb : b = (BarchartComponent.draw [] cw ch xK yK ds).xScale) :
    b.domain.Nodup ∧
    b.domain = firstDedup (BarchartComponent.getData ds xK) ∧
    b.domain.toFinset = (BarchartComponent.getData ds xK).toFinset ∧
    b.domain.length = (BarchartComponent.getData ds xK).toFinset.card ∧
    List.Sublist b.domain (BarchartComponent.getData ds xK) ∧
    b.cw = cw ∧
    b.bandwidth = ((cw : ℚ) /
      ((if b.domain.length = 0 then 1 else b.domain.length : ℕ) : ℚ)).floor ∧
    (b.domain.length : ℤ) * b.bandwidth ≤ cw := by
  subst hb
  refine ⟨firstDedup_nodup _, rfl, firstDedup_toFinset _,
    firstDedup_length_eq_card _, firstDedup_sublist _, rfl, rfl, ?_⟩
  exact bandwidth_mul_le _ hcw

/-- C4 witness: the dataset with X values A, B, A and chartWidth 280: the
domain is [A, B] (no duplicate), bandwidth 140, and 2 * 140 is at most
280. -/
theorem c4_witness :
    (0 : ℤ) ≤ 280 ∧
    ((BarchartComponent.draw [] 280 280 "cat" "val" dsDup).xScale.domain.Nodup ∧
     (BarchartComponent.draw [] 280 280 "cat" "val" dsDup).xScale.domain =
       firstDedup (BarchartComponent.getData dsDup "cat") ∧
     (BarchartComponent.draw [] 280 280 "cat" "val" dsDup).xScale.domain.toFinset =
       (BarchartComponent.getData dsDup "cat").toFinset ∧
     (BarchartComponent.draw [] 280 280 "cat" "val" dsDup).xScale.domain.length =
       (BarchartComponent.getData dsDup "cat").toFinset.card ∧
     List.Sublist
       (BarchartComponent.draw [] 280 280 "cat" "val" dsDup).xScale.domain
       (BarchartComponent.getData dsDup "cat") ∧
     (BarchartComponent.draw [] 280 280 "cat" "val" dsDup).xScale.cw = 280 ∧
     (BarchartComponent.draw [] 280 280 "cat" "val" dsDup).xScale.bandwidth =
       (((280 : ℤ) : ℚ) /
         ((if (BarchartComponent.draw [] 280 280 "cat" "val"
              dsDup).xScale.domain.length = 0 then 1
           else (BarchartComponent.draw [] 280 280 "cat" "val"
              dsDup).xScale.domain.length : ℕ) : ℚ)).floor ∧
     ((BarchartComponent.draw [] 280 280 "cat" "val"
        dsDup).xScale.domain.length : ℤ) *
       (BarchartComponent.draw [] 280 280 "cat" "val"
        dsDup).xScale.bandwidth ≤ 280) :=
  ⟨by decide, c4_band_scale_partition 280 280 "cat" "val" dsDup _ (by decide)
    rfl⟩

/-- C5 (amended): on an initial draw, exactly one bar is created per record,
whose pre-transition state is y = linearScale(0) and height = chartHeight -
linearScale(0), applied before any transition is enqueued; when the Y maximum
is nonzero these equal chartHeight and 0.  In the part_000 variant the
baseline is literally y = chartHeight and height = 0.  (When the Y maximum is
0 in the app and lib variants, linearScale(0) is the rounded range midpoint
and the baseline height is nonzero; see the counterexample.) -/
theorem c5_baseline_state (cw ch : ℤ) (xK yK : String) (ds : List Record)
    (m : ℚ) (hm : d3Max (BarchartComponent.getData ds yK) = some m)
    (h0 : m ≠ 0) :
    (BarchartComponent.draw [] cw ch xK yK ds).bars.length = ds.length ∧
    (BarchartComponent.draw [] cw ch xK yK ds).bars.map
        (fun bar => (bar.y, bar.height))
      = List.replicate ds.length (some ch, some (0 : ℤ)) ∧
    (Part000.draw [] cw ch xK yK ds).bars
      = List.replicate ds.length { height := 0, y := ch } := by
  have hz : LinearScale.scale
      { d0 := 0, d1 := d3Max (BarchartComponent.getData ds yK),
        r0 := (ch : ℚ), r1 := 0 } 0 = some ch := by
    rw [hm]
    exact LinearScale.scale_zero m ch h0
  refine ⟨?_, ?_, ?_⟩
  · simp [BarchartComponent.draw]
  · simp only [BarchartComponent.draw, List.nil_append, List.length_nil,
      List.drop_zero, List.map_map, Function.comp_def, hz, osub]
    have hsub : Option.map (fun b => ch - b) (some ch) = some 0 := by
      simp
    rw [hsub]
    exact list_map_const_eq_replicate ds _
  · simp only [Part000.draw, List.nil_append, List.length_nil,
      List.drop_zero]
    exact list_map_const_eq_replicate ds _

/-- C5 witness: the spec end-to-end dataset (Y maximum 20): three bars, each
with baseline y = 280 and height = 0 in the app variant and part_000. -/
theorem c5_witness :
    d3Max (BarchartComponent.getData dsABC "val") = some 20 ∧
    (20 : ℚ) ≠ 0 ∧
    ((BarchartComponent.draw [] 280 280 "cat" "val" dsABC).bars.length =
        dsABC.length ∧
     (BarchartComponent.draw [] 280 280 "cat" "val" dsABC).bars.map
        (fun bar => (bar.y, bar.height))
       = List.replicate dsABC.length (some 280, some (0 : ℤ)) ∧
     (Part000.draw [] 280 280 "cat" "val" dsABC).bars
       = List.replicate dsABC.length { height := 0, y := 280 }) :=
  ⟨by decide, by decide,
    c5_baseline_state 280 280 "cat" "val" dsABC 20 (by decide) (by decide)⟩

/-- C5 counterexample: for the non-empty dataset with single Y value 0 the
app variant creates its one bar with baseline y = 140 and height = 140
(chartHeight = 280), not height = 0 and y = chartHeight as the claim asserts
for every record. -/
theorem c5_counterexample_zero_max :
    (BarchartComponent.draw [] 280 280 "cat" "val" dsZero).bars.map
        (fun bar => (bar.y, bar.height)) = [(some 140, some 140)] ∧
    ¬((BarchartComponent.draw [] 280 280 "cat" "val" dsZero).bars.map
        (fun bar => bar.height) = [some 0]) := by
  decide

/-- C6: on an initial draw, each record's bar receives one transition with
the fixed duration of its variant (880 ms in the app and lib variants,
1200 ms in part_000) and the linear easing curve, animating y to
linearScale(record[yField]) and height to chartHeight -
linearScale(record[yField]), so the settled geometry reflects the record's
own data value; in particular the settled y and height of a bar always sum
to chartHeight when defined. -/
theorem c6_transition_targets (cw ch : ℤ) (xK yK : String)
    (ds : List Record) :
    (BarchartComponent.draw [] cw ch xK yK ds).transitions =
      ds.map (fun d =>
        { ease := Ease.linear
          duration := 880
          y := LinearScale.applyVal
            { d0 := 0, d1 := d3Max (BarchartComponent.getData ds yK),
              r0 := (ch : ℚ), r1 := 0 } (lookupField d yK)
          height := osub ch (LinearScale.applyVal
            { d0 := 0, d1 := d3Max (BarchartComponent.getData ds yK),
              r0 := (ch : ℚ), r1 := 0 } (lookupField d yK)) }) ∧
    (BarchartComponent.draw [] cw ch xK yK ds).transitions.map
        (fun t => t.height) =
      (BarchartComponent.draw [] cw ch xK yK ds).transitions.map
        (fun t => osub ch t.y) ∧
    (Part000.draw [] cw ch xK yK ds).transitions =
      ds.map (fun d =>
        { ease := Ease.linear
          duration := 1200
          width := BandScale.bandwidth
            { domain := firstDedup (Part000.getData ds xK), cw := cw }
          x := BandScale.scale
            { domain := firstDedup (Part000.getData ds xK), cw := cw }
            (lookupField d xK)
          y := LinearScale.applyVal
            { d0 := 0, d1 := d3Max (Part000.getData ds yK),
              r0 := (ch : ℚ), r1 := 0 } (lookupField d yK)
          height := osub ch (LinearScale.applyVal
            { d0 := 0, d1 := d3Max (Part000.getData ds yK),
              r0 := (ch : ℚ), r1 := 0 } (lookupField d yK)) }) := by
  refine ⟨rfl, ?_, rfl⟩
  simp only [BarchartComponent.draw, List.map_map]
  rfl

/-- C7 evidence (code bug): after an initial draw of three records, a second
draw with a two-record dataset leaves the chart with the three stale bars of
the first draw: the index join of selectAll(.bar).data(dataSet).enter()
yields an empty enter selection, the exit selection is never removed and the
update selection is never written, so no prior bar is discarded, no fresh
bar is created, no transition is enqueued, and the bar count 3 differs from
the dataset size 2. -/
theorem c7_rerender_keeps_stale_bars :
    c7first.bars.length = 3 ∧
    dsTwo.length = 2 ∧
    c7second.bars = c7first.bars ∧
    c7second.bars.length ≠ dsTwo.length ∧
    c7second.transitions = [] := by
  decide

/-- C8: for every config, after the geometry computation of the lib variant
runs (on either lifecycle path), chartWidth + margins.left + margins.right =
width and chartHeight + margins.top + margins.bottom = height; the identity
holds for all configs, so no clamping is applied. -/
theorem c8_geometry_identity (cfg : Cfg) (hc : Bool) (pb : List BarEnter)
    (data : Option (List Record)) (ds : List Record) :
    (BarChartComponent.ngOnChanges cfg hc pb data).chartWidth
        + cfg.margins.left + cfg.margins.right = cfg.width ∧
    (BarChartComponent.ngOnChanges cfg hc pb data).chartHeight
        + cfg.margins.top + cfg.margins.bottom = cfg.height ∧
    (BarChartComponent.ngOnInit cfg (some ds)).toOption.map
        (fun r => (r.chartWidth + cfg.margins.left + cfg.margins.right,
                   r.chartHeight + cfg.margins.top + cfg.margins.bottom))
      = some (cfg.width, cfg.height) := by
  refine ⟨?_, ?_, ?_⟩
  · simp only [BarChartComponent.ngOnChanges]
    omega
  · simp only [BarChartComponent.ngOnChanges]
    omega
  · have h : (BarChartComponent.ngOnInit cfg (some ds)).toOption.map
        (fun r => (r.chartWidth + cfg.margins.left + cfg.margins.right,
                   r.chartHeight + cfg.margins.top + cfg.margins.bottom))
        = some (cfg.width - cfg.margins.left - cfg.margins.right
                  + cfg.margins.left + cfg.margins.right,
                cfg.height - cfg.margins.top - cfg.margins.bottom
                  + cfg.margins.top + cfg.margins.bottom) := rfl
    rw [h]
    simp only [Option.some.injEq, Prod.mk.injEq]
    omega

/-- C9 (amended): the code performs no config validation and no ConfigError
exists: for every config, including one whose margins leave a non-positive
plotting area, render succeeds and computes chartWidth = width - left - right
and chartHeight = height - top - bottom unclamped. -/
theorem c9_no_config_validation (cfg : Cfg) (ds : List Record) :
    (BarChartComponent.ngOnInit cfg (some ds)).toOption.isSome = true ∧
    (BarChartComponent.ngOnInit cfg (some ds)).toOption.map
        (fun r => (r.chartWidth, r.chartHeight))
      = some (cfg.width - cfg.margins.left - cfg.margins.right,
              cfg.height - cfg.margins.top - cfg.margins.bottom) :=
  ⟨rfl, rfl⟩

/-- C9 counterexample: with width 100 and left and right margins of 60 the
plotting width is -20, yet render raises nothing and proceeds with the
negative dimension, where the claim demands a ConfigError. -/
theorem c9_counterexample_negative_area :
    (BarChartComponent.ngOnInit cfgBad (some dsABC)).toOption.isSome = true ∧
    (BarChartComponent.ngOnInit cfgBad (some dsABC)).toOption.map
        (fun r => r.chartWidth) = some (-20) :=
  ⟨rfl, rfl⟩

/-- C10: on the change-notification path a null dataset raises no error --
ngOnChanges recomputes chartWidth and chartHeight from the current config and
silently skips drawing -- and the Missing Data! check is performed only on
the initial render path (ngOnInit); part_000's change path recomputes the
geometry only and never draws at all. -/
theorem c10_rerender_null_is_silent :
    (∀ (cfg : Cfg) (hc : Bool) (pb : List BarEnter),
      BarChartComponent.ngOnChanges cfg hc pb none =
        { chartWidth := cfg.width - cfg.margins.left - cfg.margins.right
          chartHeight := cfg.height - cfg.margins.top - cfg.margins.bottom
          draw := none }) ∧
    (∀ cfg : Cfg,
      BarChartComponent.ngOnInit cfg none = Except.error "Missing Data!") ∧
    (∀ cfg : Cfg, Part000.ngOnChanges cfg =
        { chartWidth := cfg.width - cfg.margins.left - cfg.margins.right
          chartHeight := cfg.height - cfg.margins.top - cfg.margins.bottom }) := by
  refine ⟨fun cfg hc pb => ?_, fun cfg => rfl, fun cfg => rfl⟩
  cases hc <;> rfl
